import Mathlib

/-!
Shallow embedding of `src/Instructor/utils/timing.py`.

The module wraps `time.perf_counter` reads around a unit of work.  We model
the clock as an oracle `clock : Nat → ℚ` giving the value returned by the
n-th call to `perf_counter` in the process, together with a running read
counter.  Python exceptions are modelled with `Except`, the callable's own
side effects with an explicit state `σ` threaded through it, lines written
to standard output with a `List String`, and the invocations of the wrapped
callable with a `List` of the argument tuples it was applied to.
-/

namespace Timing

/-- Python values that can be bound by a `with ... as v` statement in this
module; the generator body of `timer` runs a bare `yield`, which yields
`None`. -/
inductive PyValue where
  | pyNone
  | pyStr (s : String)
  | pyRat (q : ℚ)
  deriving DecidableEq

/-- The elapsed-milliseconds computation
`(end_time - start_time) * 1000  # Convert to milliseconds`
shared by lines 33 and 58 of `timing.py`. -/
def elapsedMs (start_time end_time : ℚ) : ℚ :=
  (end_time - start_time) * 1000

/-- Round a rational to the nearest integer, ties to even, as CPython's
`format(x, ".2f")` does on the scaled value. -/
def roundHalfEven (q : ℚ) : ℤ :=
  let f := ⌊q⌋
  let frac := q - f
  if frac < 1/2 then f
  else if 1/2 < frac then f + 1
  else if f % 2 = 0 then f else f + 1

/-- The `"{:.2f}"` format specifier: two digits after the decimal point. -/
def format2f (q : ℚ) : String :=
  let n := roundHalfEven (q * 100)
  let sign := if q < 0 then "-" else ""
  let whole := n.natAbs / 100
  let cents := n.natAbs % 100
  sign ++ toString whole ++ "." ++ (if cents < 10 then "0" else "") ++ toString cents

/-- Python truthiness of the `description` argument (`Optional[str]`):
`None` and the empty string are falsy, every other string is truthy. -/
def pyTruthy : Option String → Bool
  | none => false
  | some s => !s.isEmpty

/-- A Python function object: introspectable metadata (`__name__`,
`__doc__`) plus its callable behaviour. -/
structure PyFunction (γ : Type) where
  name : String
  doc : Option String
  call : γ

/-- The decoration `functools.wraps(func)` applied to the freshly defined wrapper copies
`func`'s introspection metadata (in particular `__name__` and `__doc__`)
onto the wrapper, keeping the wrapper's behaviour. -/
def functools_wraps {γ δ : Type} (func : PyFunction γ) (w : PyFunction δ) :
    PyFunction δ :=
  { w with name := func.name, doc := func.doc }

/-- The body of `wrapper` (lines 29–34 of `timing.py`):

```
start_time = time.perf_counter()
result = func(*args, **kwargs)
end_time = time.perf_counter()
execution_time = (end_time - start_time) * 1000
return result, execution_time
```

`func` is an arbitrary effectful fallible callable `α → σ → Except ε β × σ`
(it may mutate its own state `σ`, also when it raises).  The result records
the Python return value (or the propagated exception), the advanced clock
read counter, the callable's final state and the list of invocations of
`func` made by this call.  When `func` raises, the exception propagates
before the second `perf_counter` read, so only one read happens and no
pair is returned. -/
def wrapper {α β ε σ : Type} (func : α → σ → Except ε β × σ) (a : α)
    (clock : Nat → ℚ) (reads : Nat) (fs : σ) :
    Except ε (β × ℚ) × Nat × σ × List α :=
  let start_time := clock reads
  match func a fs with
  | (Except.error e, fs') => (Except.error e, reads + 1, fs', [a])
  | (Except.ok result, fs') =>
    let end_time := clock (reads + 1)
    let execution_time := elapsedMs start_time end_time
    (Except.ok (result, execution_time), reads + 2, fs', [a])

/-- The decorator `time_execution` (lines 8–35): defines `wrapper`, decorated with
`@functools.wraps(func)`, and returns it. -/
def time_execution {α β ε σ : Type}
    (func : PyFunction (α → σ → Except ε β × σ)) :
    PyFunction (α → (Nat → ℚ) → Nat → σ → Except ε (β × ℚ) × Nat × σ × List α) :=
  functools_wraps func ⟨"wrapper", none, wrapper func.call⟩

/-- Entry phase of the `timer` generator (lines 55–56): record the start
timestamp, then `yield` (which yields `None`, the value a `with ... as v`
binds). -/
def timer_enter (clock : Nat → ℚ) (reads : Nat) : PyValue × ℚ × Nat :=
  (PyValue.pyNone, clock reads, reads + 1)

/-- The message printed on normal exit (lines 60–63):

```
if description:
    print(f"{description} took {execution_time:.2f}ms")
else:
    print(f"Execution took {execution_time:.2f}ms")
```
-/
def timerLine (description : Option String) (execution_time : ℚ) : String :=
  if pyTruthy description then
    description.getD "" ++ " took " ++ format2f execution_time ++ "ms"
  else
    "Execution took " ++ format2f execution_time ++ "ms"

/-- A `with timer(description): block` statement.  The block sees the value
yielded by the generator and may mutate a state `σ` or raise.  On normal
exit the generator resumes after the `yield`: it reads the stop timestamp
and prints one line.  If the block raises, the exception is thrown into the
generator at the `yield`; there is no `try/finally` around it, so the
exception propagates at once: no second read, no output. -/
def withTimer {ε σ : Type} (description : Option String)
    (block : PyValue → σ → Except ε σ)
    (clock : Nat → ℚ) (reads : Nat) (s : σ) :
    Except ε σ × Nat × List String :=
  let (v, start_time, reads1) := timer_enter clock reads
  match block v s with
  | Except.error e => (Except.error e, reads1, [])
  | Except.ok s' =>
    let end_time := clock reads1
    let execution_time := elapsedMs start_time end_time
    (Except.ok s', reads1 + 1, [timerLine description execution_time])

/-! ### Theorems about the decorator -/

/-- C1: for every callable `func` and argument tuple `a`, whenever
`func(a)` terminates normally with value `r`, the callable produced by the
`time_execution` decorator returns a pair whose first component is exactly
`r`, and the only invocation it makes of `func` is with the unchanged
argument tuple `a`. -/
theorem time_execution_value_preserving {α β ε σ : Type}
    (func : PyFunction (α → σ → Except ε β × σ)) (a : α)
    (clock : Nat → ℚ) (reads : Nat) (fs : σ) (r : β) (fs' : σ)
    (h : func.call a fs = (Except.ok r, fs')) :
    ∃ t : ℚ, ((time_execution func).call a clock reads fs).1 = Except.ok (r, t)
      ∧ ((time_execution func).call a clock reads fs).2.2.2 = [a] := by
  exact ⟨elapsedMs (clock reads) (clock (reads + 1)),
    by simp [time_execution, functools_wraps, wrapper, h],
    by simp [time_execution, functools_wraps, wrapper, h]⟩

/-- C1 witness: doubling 5 through the decorated callable yields first
component 10 and a single invocation with argument 5. -/
theorem time_execution_value_preserving_witness :
    ∃ t : ℚ,
      ((time_execution (⟨"double", none,
          fun (a : Nat) (s : Nat) => ((Except.ok (a * 2) : Except Unit Nat), s + 1)⟩ :
          PyFunction (Nat → Nat → Except Unit Nat × Nat))).call
        5 (fun n => (n : ℚ)) 0 0).1 = Except.ok (10, t)
      ∧ ((time_execution (⟨"double", none,
          fun (a : Nat) (s : Nat) => ((Except.ok (a * 2) : Except Unit Nat), s + 1)⟩ :
          PyFunction (Nat → Nat → Except Unit Nat × Nat))).call
        5 (fun n => (n : ℚ)) 0 0).2.2.2 = [5] :=
  time_execution_value_preserving _ 5 (fun n => (n : ℚ)) 0 0 10 1 rfl

/-- C3: when `func` raises exception `e`, the decorated callable re-raises
exactly `e`, unchanged, and produces no `(value, elapsed)` pair. -/
theorem time_execution_reraises {α β ε σ : Type}
    (func : PyFunction (α → σ → Except ε β × σ)) (a : α)
    (clock : Nat → ℚ) (reads : Nat) (fs : σ) (e : ε) (fs' : σ)
    (h : func.call a fs = (Except.error e, fs')) :
    ((time_execution func).call a clock reads fs).1 = Except.error e := by
  simp [time_execution, functools_wraps, wrapper, h]

/-- C3 witness: a callable that raises the string exception `"ValueError"`
has it re-raised unchanged by the decorated form. -/
theorem time_execution_reraises_witness :
    ((time_execution (⟨"boom", none,
        fun (_ : Nat) (s : Nat) => ((Except.error "ValueError" : Except String Nat), s)⟩ :
        PyFunction (Nat → Nat → Except String Nat × Nat))).call
      7 (fun n => (n : ℚ)) 0 0).1 = Except.error "ValueError" :=
  time_execution_reraises _ 7 (fun n => (n : ℚ)) 0 0 "ValueError" 0 rfl

/-- C6: the callable produced by `time_execution` carries the original
callable's introspectable name and docstring (the effect of
`@functools.wraps(func)` on line 28). -/
theorem time_execution_preserves_metadata {α β ε σ : Type}
    (func : PyFunction (α → σ → Except ε β × σ)) :
    (time_execution func).name = func.name ∧ (time_execution func).doc = func.doc :=
  ⟨rfl, rfl⟩

/-- C10: the first component of the decorated callable's result is
independent of the clock: two runs differing only in the clock oracle and
the read position agree on it; and each call of the wrapper invokes `func`
exactly once, with the given arguments. -/
theorem time_execution_value_clock_independent {α β ε σ : Type}
    (func : PyFunction (α → σ → Except ε β × σ)) (a : α) (fs : σ)
    (c₁ c₂ : Nat → ℚ) (n₁ n₂ : Nat) :
    ((time_execution func).call a c₁ n₁ fs).1.map Prod.fst
        = ((time_execution func).call a c₂ n₂ fs).1.map Prod.fst
      ∧ ((time_execution func).call a c₁ n₁ fs).2.2.2 = [a] := by
  cases hf : func.call a fs with
  | mk r fs' =>
    cases r <;>
      simp [time_execution, functools_wraps, wrapper, hf, Except.map]

/-! ### Theorems about the timer scope -/

/-- Helper: rounding `0 * 100` gives `0`. -/
lemma roundHalfEven_zero_mul : roundHalfEven ((0 : ℚ) * 100) = 0 := by
  unfold roundHalfEven
  norm_num

/-- Helper: the two-decimal rendering of a zero elapsed time. -/
lemma format2f_zero : format2f 0 = "0.00" := by
  have h2 : ¬ ((0 : ℚ) < 0) := lt_irrefl 0
  simp only [format2f, roundHalfEven_zero_mul, if_neg h2]
  decide

/-- Helper: a constant clock measures zero elapsed milliseconds. -/
lemma elapsedMs_self (t : ℚ) : elapsedMs t t = 0 := by
  simp [elapsedMs]

/-- C2 counterexample: supplying the description string `""` to `timer`
makes a normally-exiting block print `"Execution took 0.00ms"`, not the
`"{description} took ..."` form the claim promises for every supplied
description string. -/
theorem timer_empty_description_breaks_desc_format :
    (withTimer (some "") (fun _ (s : Nat) => (Except.ok s : Except Unit Nat))
        (fun _ => (0 : ℚ)) 0 0).2.2
      ≠ ["" ++ " took " ++ format2f (elapsedMs 0 0) ++ "ms"] := by
  have hout : (withTimer (some "") (fun _ (s : Nat) => (Except.ok s : Except Unit Nat))
      (fun _ => (0 : ℚ)) 0 0).2.2
      = ["Execution took " ++ format2f (elapsedMs 0 0) ++ "ms"] := by
    simp [withTimer, timer_enter, timerLine, pyTruthy,
      show "".isEmpty = true from rfl]
  rw [hout, elapsedMs_self, format2f_zero]
  decide

/-- C2 (amended): a block that exits the timer scope normally emits exactly
one line: `"{description} took {elapsed:.2f}ms"` whenever a non-empty
description string was supplied, and `"Execution took {elapsed:.2f}ms"`
when no description was supplied. -/
theorem timer_prints_one_line {ε σ : Type} (d : String) (hd : d ≠ "")
    (block : PyValue → σ → Except ε σ) (clock : Nat → ℚ) (reads : Nat) (s s' : σ)
    (h : block PyValue.pyNone s = Except.ok s') :
    (withTimer (some d) block clock reads s).2.2
        = [d ++ " took " ++ format2f (elapsedMs (clock reads) (clock (reads + 1))) ++ "ms"]
      ∧ (withTimer none block clock reads s).2.2
        = ["Execution took " ++ format2f (elapsedMs (clock reads) (clock (reads + 1))) ++ "ms"] := by
  constructor <;>
    simp [withTimer, timer_enter, timerLine, pyTruthy, h, String.isEmpty_iff, hd]

/-- C2 witness: with description `"load"` over a no-op block the scope
prints exactly the one line `"load took ...ms"`; without a description,
exactly `"Execution took ...ms"`. -/
theorem timer_prints_one_line_witness :
    (withTimer (some "load") (fun _ (s : Nat) => (Except.ok s : Except Unit Nat))
        (fun _ => (0 : ℚ)) 0 0).2.2
      = ["load" ++ " took " ++ format2f (elapsedMs 0 0) ++ "ms"]
    ∧ (withTimer none (fun _ (s : Nat) => (Except.ok s : Except Unit Nat))
        (fun _ => (0 : ℚ)) 0 0).2.2
      = ["Execution took " ++ format2f (elapsedMs 0 0) ++ "ms"] :=
  timer_prints_one_line "load" (by decide) _ (fun _ => (0 : ℚ)) 0 0 0 rfl

/-- C4: when the bracketed block raises exception `e`, the `with timer(...)`
statement propagates exactly `e` to the caller. -/
theorem timer_propagates_exception {ε σ : Type} (d : Option String)
    (block : PyValue → σ → Except ε σ) (clock : Nat → ℚ) (reads : Nat) (s : σ) (e : ε)
    (h : block PyValue.pyNone s = Except.error e) :
    (withTimer d block clock reads s).1 = Except.error e := by
  simp [withTimer, timer_enter, h]

/-- C4 witness: a block raising the string exception `"ValueError"` has it
propagated unchanged by the timer scope. -/
theorem timer_propagates_exception_witness :
    (withTimer (some "work") (fun _ (_ : Nat) => (Except.error "ValueError" : Except String Nat))
        (fun _ => (0 : ℚ)) 0 0).1 = Except.error "ValueError" :=
  timer_propagates_exception (some "work") _ (fun _ => (0 : ℚ)) 0 0 "ValueError" rfl

/-- C5: with a monotonic clock (the second read is at least the first),
every completed measurement has non-negative elapsed milliseconds: the
decorator's returned `elapsed_ms` is `≥ 0`, and the elapsed value the timer
scope prints is `≥ 0`. -/
theorem elapsed_nonneg (clock : Nat → ℚ) (reads : Nat)
    (hmono : clock reads ≤ clock (reads + 1)) :
    (∀ {α β ε σ : Type} (func : α → σ → Except ε β × σ) (a : α) (fs : σ) (r : β) (fs' : σ),
        func a fs = (Except.ok r, fs') →
        ∃ t : ℚ, (wrapper func a clock reads fs).1 = Except.ok (r, t) ∧ 0 ≤ t)
    ∧ (∀ {ε σ : Type} (d : Option String) (block : PyValue → σ → Except ε σ) (s s' : σ),
        block PyValue.pyNone s = Except.ok s' →
        ∃ e : ℚ, 0 ≤ e ∧ (withTimer d block clock reads s).2.2 = [timerLine d e]) := by
  have hnn : 0 ≤ elapsedMs (clock reads) (clock (reads + 1)) :=
    mul_nonneg (sub_nonneg.2 hmono) (by norm_num)
  constructor
  · intro α β ε σ func a fs r fs' hf
    exact ⟨elapsedMs (clock reads) (clock (reads + 1)), by simp [wrapper, hf], hnn⟩
  · intro ε σ d block s s' hb
    exact ⟨elapsedMs (clock reads) (clock (reads + 1)), hnn,
      by simp [withTimer, timer_enter, hb]⟩

/-- C5 witness: at a constant clock, the decorator's measurement of a
doubling callable and the timer scope's measurement of a no-op block are
both non-negative. -/
theorem elapsed_nonneg_witness :
    (∃ t : ℚ, (wrapper (fun (a : Nat) (s : Nat) => ((Except.ok (a * 2) : Except Unit Nat), s))
        5 (fun _ => (0 : ℚ)) 0 0).1 = Except.ok (10, t) ∧ 0 ≤ t)
    ∧ (∃ e : ℚ, 0 ≤ e
        ∧ (withTimer (some "load") (fun _ (s : Nat) => (Except.ok s : Except Unit Nat))
            (fun _ => (0 : ℚ)) 0 0).2.2 = [timerLine (some "load") e]) :=
  ⟨(elapsed_nonneg (fun _ => (0 : ℚ)) 0 le_rfl).1 _ 5 0 10 0 rfl,
   (elapsed_nonneg (fun _ => (0 : ℚ)) 0 le_rfl).2 (some "load") _ 0 0 rfl⟩

/-- C7: the timer scope produces no value: the generator yields `None` (so
a `with timer(...) as v` binds `None`), and on normal exit the whole
observable outcome is the block's own result, the two clock reads, and the
single line written to standard output. -/
theorem timer_yields_none {ε σ : Type} (d : Option String)
    (block : PyValue → σ → Except ε σ) (clock : Nat → ℚ) (reads : Nat) (s s' : σ)
    (h : block PyValue.pyNone s = Except.ok s') :
    (timer_enter clock reads).1 = PyValue.pyNone
    ∧ withTimer d block clock reads s
        = (Except.ok s', reads + 1 + 1,
            [timerLine d (elapsedMs (clock reads) (clock (reads + 1)))]) := by
  refine ⟨rfl, ?_⟩
  simp [withTimer, timer_enter, h]

/-- C7 witness: a no-op block under `timer("load")` at a constant clock
yields `None` and results in exactly one output line. -/
theorem timer_yields_none_witness :
    (timer_enter (fun _ => (0 : ℚ)) 0).1 = PyValue.pyNone
    ∧ withTimer (some "load") (fun _ (s : Nat) => (Except.ok s : Except Unit Nat))
        (fun _ => (0 : ℚ)) 0 0
      = (Except.ok 0, 0 + 1 + 1, [timerLine (some "load") (elapsedMs 0 0)]) :=
  timer_yields_none (some "load") _ (fun _ => (0 : ℚ)) 0 0 0 rfl

/-- C8: supplying the empty string `""` as the description prints the
no-description message `"Execution took {elapsed:.2f}ms"`, because line 60
branches on the truthiness of `description`, and `""` is falsy. -/
theorem timer_empty_description_execution_format {ε σ : Type}
    (block : PyValue → σ → Except ε σ) (clock : Nat → ℚ) (reads : Nat) (s s' : σ)
    (h : block PyValue.pyNone s = Except.ok s') :
    (withTimer (some "") block clock reads s).2.2
      = ["Execution took " ++ format2f (elapsedMs (clock reads) (clock (reads + 1))) ++ "ms"] := by
  simp [withTimer, timer_enter, timerLine, pyTruthy, h,
    show "".isEmpty = true from rfl]

/-- C8 witness: `timer("")` over a no-op block at a constant clock prints
the `"Execution took ..."` form. -/
theorem timer_empty_description_execution_format_witness :
    (withTimer (some "") (fun _ (s : Nat) => (Except.ok s : Except Unit Nat))
        (fun _ => (0 : ℚ)) 0 0).2.2
      = ["Execution took " ++ format2f (elapsedMs 0 0) ++ "ms"] :=
  timer_empty_description_execution_format _ (fun _ => (0 : ℚ)) 0 0 0 rfl

/-- C9: when the bracketed block raises, the timer emits nothing at all on
that path: the exception propagates, only the start timestamp was read, and
the output is empty. -/
theorem timer_silent_on_exception {ε σ : Type} (d : Option String)
    (block : PyValue → σ → Except ε σ) (clock : Nat → ℚ) (reads : Nat) (s : σ) (e : ε)
    (h : block PyValue.pyNone s = Except.error e) :
    withTimer d block clock reads s = (Except.error e, reads + 1, []) := by
  simp [withTimer, timer_enter, h]

/-- C9 witness: a raising block under `timer("work")` leaves the output
empty and only one clock read taken. -/
theorem timer_silent_on_exception_witness :
    withTimer (some "work") (fun _ (_ : Nat) => (Except.error (42 : Int) : Except Int Nat))
        (fun _ => (0 : ℚ)) 3 0
      = (Except.error 42, 3 + 1, []) :=
  timer_silent_on_exception (some "work") _ (fun _ => (0 : ℚ)) 3 0 42 rfl

end Timing
